import Mathlib

/-!
Verification of the UI-alert-ALLEN crawl-and-verify engine against its
specification.  The Python source (scraper.py, validation_service.py and the
validators package) is shallowly embedded below: pure helpers become Lean
functions over `String`/`List Char`, the sqlite-backed store becomes a
`List Row` with explicit state passing, and the browser automation surface
is abstracted into explicit environment records describing the outcomes of
navigation and element reads.
-/

namespace UIAlert

/-! ## String utilities mirroring Python primitives -/

/-- Python `str.startswith`-style check on character lists. -/
def leadsWith : List Char → List Char → Bool
  | [], _ => true
  | _ :: _, [] => false
  | p :: ps, c :: cs => p == c && leadsWith ps cs

/-- Python `pat in s` (contiguous-substring containment) on character lists. -/
def subIn (pat : List Char) : List Char → Bool
  | [] => leadsWith pat []
  | c :: cs => leadsWith pat (c :: cs) || subIn pat cs

/-- Python `pat in s` for strings. -/
def strContains (s pat : String) : Bool := subIn pat.toList s.toList

/-- Python `s.startswith(pre)` for strings. -/
def strStarts (s pre : String) : Bool := leadsWith pre.toList s.toList

/-- ASCII digit test, mirroring the characters matched by the Python regex
`\d+` on the price strings this system handles. -/
def isDigitC (c : Char) : Bool := 48 ≤ c.toNat && c.toNat ≤ 57

/-- ASCII lower-casing of a character, mirroring Python `str.lower` on the
ASCII sentinel strings this system compares against. -/
def lowerChar (c : Char) : Char :=
  if 65 ≤ c.toNat && c.toNat ≤ 90 then Char.ofNat (c.toNat + 32) else c

/-- Python `s.lower()`. -/
def lowerStr (s : String) : String := String.mk (s.toList.map lowerChar)

/-- Python `s.replace(',', '')`. -/
def removeCommas (s : String) : String :=
  String.mk (s.toList.filter (fun c => !(c == ',')))

/-- Python `"".join(re.findall(r'\d+', s))`: the digit characters of `s`
in order (joining all maximal digit runs keeps exactly the digit chars). -/
def digitsOnly (s : String) : String :=
  String.mk (s.toList.filter isDigitC)

/-- Python `s.strip('/')`: drop leading and trailing slash characters. -/
def stripSlashes (s : String) : String :=
  String.mk (((s.toList.dropWhile (fun c => c == '/')).reverse.dropWhile
    (fun c => c == '/')).reverse)

/-- Python `s.strip()`: drop leading and trailing whitespace. -/
def stripWs (s : String) : String :=
  String.mk (((s.toList.dropWhile Char.isWhitespace).reverse.dropWhile
    Char.isWhitespace).reverse)

/-! ## Price normalizers

`clean_price` embeds `BasePageHandler.clean_price` (scraper.py lines 96-102):
missing when the string is empty or contains the substrings "N/A" or
"Not Found", otherwise the digit characters, or missing when there are none.

`vclean_price` embeds `PriceMismatchValidator._clean_price` together with
`_is_price_missing` (price_mismatch_validator.py lines 86-102): missing when
the string is empty or case-insensitively equal to one of the sentinels. -/

/-- Embeds `BasePageHandler.clean_price` from scraper.py. -/
def clean_price (p : String) : Option String :=
  if p == "" || strContains p "N/A" || strContains p "Not Found" then none
  else
    let nums := digitsOnly (removeCommas p)
    if nums == "" then none else some nums

/-- Embeds `PriceMismatchValidator._is_price_missing`. -/
def is_price_missing (p : String) : Bool :=
  p == "" || ["n/a", "not found", "error", ""].contains (lowerStr p)

/-- Embeds `PriceMismatchValidator._clean_price`. -/
def vclean_price (p : String) : Option String :=
  if is_price_missing p then none
  else
    let nums := digitsOnly (removeCommas p)
    if nums == "" then none else some nums

/-- C4: Price normalization: the price cleaner maps "₹ 93,500" and "93500" to
the same digit string "93500", and maps each of the sentinel inputs "N/A",
"Not Found", "Error" and the empty string to the missing value (None), for
both the scraper-side and the validator-side normalizer. -/
theorem price_normalization_c4 :
    clean_price "₹ 93,500" = some "93500" ∧
    clean_price "93500" = some "93500" ∧
    clean_price "N/A" = none ∧
    clean_price "Not Found" = none ∧
    clean_price "Error" = none ∧
    clean_price "" = none ∧
    vclean_price "₹ 93,500" = some "93500" ∧
    vclean_price "93500" = some "93500" ∧
    vclean_price "N/A" = none ∧
    vclean_price "Not Found" = none ∧
    vclean_price "Error" = none ∧
    vclean_price "" = none := by
  decide

/-! ## Persistence layer (`DatabaseManager.save_batch`, scraper.py lines 53-84)

The sqlite table becomes a `List Row`; the `SELECT ... WHERE course_name = ?
AND cta_link = ? AND viewport = ?` dedup probe becomes `hasKey`, and the
`INSERT` appends a row built from the incoming dict (`Item`), applying the
same `.get` defaults the Python code applies.  Within one `save_batch` call
the cursor sees its own uncommitted inserts, so the fold threads the store
through consecutive items exactly as the loop does. -/

/-- A persisted row of the `courses` table (scraper.py lines 32-46). -/
structure Row where
  base_url : String
  course_name : String
  cta_link : String
  price : String
  pdp_price : String
  cta_status : String
  is_broken : Int
  price_mismatch : Int
  viewport : String
deriving DecidableEq, Repr

/-- An incoming record handed to `save_batch`: the keys the Python code
indexes directly are required, the keys read with `.get` are optional. -/
structure Item where
  base_url : String
  course_name : String
  cta_link : String
  price : String
  pdp_price : Option String := none
  cta_status : Option String := none
  is_broken : Option Int := none
  price_mismatch : Option Int := none
  viewport : Option String := none
deriving DecidableEq, Repr

/-- The row inserted for an item, with the `.get` defaults of
scraper.py lines 70-79. -/
def rowOf (it : Item) : Row :=
  { base_url := it.base_url
    course_name := it.course_name
    cta_link := it.cta_link
    price := it.price
    pdp_price := it.pdp_price.getD "N/A"
    cta_status := it.cta_status.getD "N/A"
    is_broken := it.is_broken.getD 0
    price_mismatch := it.price_mismatch.getD 0
    viewport := it.viewport.getD "desktop" }

/-- Does a row match the dedup key `(course_name, cta_link, viewport)`? -/
def keyMatches (r : Row) (n l v : String) : Bool :=
  r.course_name == n && r.cta_link == l && r.viewport == v

/-- The dedup probe of scraper.py lines 61-64: is a row with this
`(course_name, cta_link, viewport)` key already present? -/
def hasKey (store : List Row) (n l v : String) : Bool :=
  store.any (fun r => keyMatches r n l v)

/-- One iteration of the `save_batch` loop: insert only if the dedup
probe found nothing. -/
def insertItem (store : List Row) (it : Item) : List Row :=
  if hasKey store it.course_name it.cta_link (it.viewport.getD "desktop")
  then store
  else store ++ [rowOf it]

/-- Embeds `DatabaseManager.save_batch`. -/
def save_batch (store : List Row) (batch : List Item) : List Row :=
  batch.foldl insertItem store

/-- Number of rows in the store carrying a given
`(course_name, cta_link, viewport)` key. -/
def countKey (store : List Row) (n l v : String) : Nat :=
  (store.filter (fun r => keyMatches r n l v)).length

/-- Number of rows in the store carrying a given `(course_name, viewport)`
pair, regardless of `cta_link`. -/
def countPair (store : List Row) (n v : String) : Nat :=
  (store.filter (fun r => r.course_name == n && r.viewport == v)).length

/-! ### Lemmas about the dedup fold -/

theorem mem_insertItem {r : Row} {store : List Row} (it : Item)
    (h : r ∈ store) : r ∈ insertItem store it := by
  unfold insertItem
  split
  · exact h
  · exact List.mem_append_left _ h

theorem hasKey_of_mem {store : List Row} {r : Row} (h : r ∈ store)
    {n l v : String} (hk : keyMatches r n l v = true) :
    hasKey store n l v = true := by
  unfold hasKey
  exact List.any_eq_true.mpr ⟨r, h, hk⟩

theorem hasKey_insertItem_mono {store : List Row} {n l v : String}
    (it : Item) (h : hasKey store n l v = true) :
    hasKey (insertItem store it) n l v = true := by
  rcases List.any_eq_true.mp h with ⟨r, hr, hk⟩
  exact hasKey_of_mem (mem_insertItem it hr) hk

theorem hasKey_saveBatch_mono {store : List Row} {n l v : String}
    (batch : List Item) (h : hasKey store n l v = true) :
    hasKey (save_batch store batch) n l v = true := by
  induction batch generalizing store with
  | nil => exact h
  | cons it rest ih => exact ih (hasKey_insertItem_mono it h)

theorem keyMatches_rowOf (it : Item) :
    keyMatches (rowOf it) it.course_name it.cta_link
      (it.viewport.getD "desktop") = true := by
  simp [keyMatches, rowOf]

theorem hasKey_insertItem_self (store : List Row) (it : Item) :
    hasKey (insertItem store it) it.course_name it.cta_link
      (it.viewport.getD "desktop") = true := by
  unfold insertItem
  split
  · assumption
  · exact hasKey_of_mem (List.mem_append_right _ (List.mem_singleton.mpr rfl))
      (keyMatches_rowOf it)

theorem hasKey_saveBatch_of_mem {batch : List Item} {it : Item}
    (h : it ∈ batch) (store : List Row) :
    hasKey (save_batch store batch) it.course_name it.cta_link
      (it.viewport.getD "desktop") = true := by
  induction batch generalizing store with
  | nil => cases h
  | cons hd rest ih =>
    rcases List.mem_cons.mp h with heq | hmem
    · subst heq
      exact hasKey_saveBatch_mono rest (hasKey_insertItem_self store it)
    · exact ih hmem (insertItem store hd)

theorem save_batch_noop {store : List Row} {batch : List Item}
    (h : ∀ it ∈ batch, hasKey store it.course_name it.cta_link
      (it.viewport.getD "desktop") = true) :
    save_batch store batch = store := by
  induction batch generalizing store with
  | nil => rfl
  | cons hd rest ih =>
    have hhd : insertItem store hd = store := by
      unfold insertItem
      rw [h hd (List.mem_cons_self hd rest)]
      simp
    show save_batch (insertItem store hd) rest = store
    rw [hhd]
    exact ih (fun it hit => h it (List.mem_cons_of_mem hd hit))

/-- C1: Persistence dedup / idempotence: `save_batch` inserts a record only if
no existing row matches its `(course_name, cta_link, viewport)` key; hence
calling `save_batch` a second time with the same batch leaves the store, and
in particular the row count for every `(course_name, cta_link, viewport)`
key, unchanged. -/
theorem save_batch_idempotent (store : List Row) (batch : List Item) :
    save_batch (save_batch store batch) batch = save_batch store batch ∧
    ∀ n l v, countKey (save_batch (save_batch store batch) batch) n l v =
      countKey (save_batch store batch) n l v := by
  have hnoop : save_batch (save_batch store batch) batch =
      save_batch store batch :=
    save_batch_noop (fun it hit => hasKey_saveBatch_of_mem hit store)
  exact ⟨hnoop, fun n l v => by rw [hnoop]⟩

/-! ### Claim C5: steady-state uniqueness

The dedup probe keys on the triple `(course_name, cta_link, viewport)`, not
on the pair `(course_name, viewport)`: a batch carrying the same course name
twice with two different links yields two rows for one
`(course_name, viewport)` pair. -/

/-- First record of the C5 counterexample batch. -/
def itemA1 : Item :=
  { base_url := "https://allen.in"
    course_name := "Course A"
    cta_link := "https://allen.in/c1"
    price := "₹ 100" }

/-- Second record of the C5 counterexample batch: same course name and
viewport, different `cta_link`. -/
def itemA2 : Item :=
  { base_url := "https://allen.in"
    course_name := "Course A"
    cta_link := "https://allen.in/c2"
    price := "₹ 100" }

/-- C5 counterexample: one `save_batch` call from the empty store leaves two
rows for the `(course_name, viewport)` pair `("Course A", "desktop")`,
refuting the claimed at-most-one invariant for `(course_name, viewport)`
combinations. -/
theorem pair_uniqueness_c5_counterexample :
    countPair (save_batch [] [itemA1, itemA2]) "Course A" "desktop" = 2 ∧
    ¬ (countPair (save_batch [] [itemA1, itemA2]) "Course A" "desktop" ≤ 1) := by
  constructor
  · decide
  · decide

theorem countKey_insertItem_le {store : List Row}
    (h : ∀ n l v, countKey store n l v ≤ 1) (it : Item) :
    ∀ n l v, countKey (insertItem store it) n l v ≤ 1 := by
  intro n l v
  unfold insertItem
  split
  case isTrue => exact h n l v
  case isFalse hk =>
    unfold countKey
    rw [List.filter_append, List.length_append]
    by_cases hm : keyMatches (rowOf it) n l v = true
    · have hkey : (it.course_name = n ∧ it.cta_link = l) ∧
          it.viewport.getD "desktop" = v := by
        simpa [keyMatches, rowOf] using hm
      have hzero : countKey store n l v = 0 := by
        unfold countKey
        rw [List.length_eq_zero, List.filter_eq_nil_iff]
        intro r hr hmr
        exact hk (hasKey_of_mem hr (by
          rw [hkey.1.1, hkey.1.2, hkey.2]; exact hmr))
      unfold countKey at hzero
      rw [hzero]
      simp [hm]
    · have : List.filter (fun r => keyMatches r n l v) [rowOf it] = [] := by
        simp [hm]
      rw [this]
      simpa using h n l v

theorem countKey_saveBatch_le {store : List Row}
    (h : ∀ n l v, countKey store n l v ≤ 1) (batch : List Item) :
    ∀ n l v, countKey (save_batch store batch) n l v ≤ 1 := by
  induction batch generalizing store with
  | nil => exact h
  | cons hd rest ih => exact ih (countKey_insertItem_le h hd)

theorem countKey_foldl_le (batches : List (List Item)) :
    ∀ store : List Row, (∀ n l v, countKey store n l v ≤ 1) →
    ∀ n l v, countKey (batches.foldl save_batch store) n l v ≤ 1 := by
  induction batches with
  | nil => intro store h; exact h
  | cons b rest ih =>
    intro store h
    exact ih (save_batch store b) (countKey_saveBatch_le h b)

/-- C5 amended: after any sequence of `save_batch` calls starting from the
empty store, the store contains at most one row for each
`(course_name, cta_link, viewport)` combination — the triple the dedup probe
actually keys on. -/
theorem triple_uniqueness_c5_amended (batches : List (List Item)) :
    ∀ n l v, countKey (batches.foldl save_batch []) n l v ≤ 1 :=
  countKey_foldl_le batches [] (fun n l v => by simp [countKey])

/-! ## Validation rules (validators package and validation_service.py)

A course dict read from the store: every field the validators fetch with
`.get` is optional, and each embedded rule applies the same defaults the
Python code does. -/

/-- A record as consumed by the validators (`course_data` dict). -/
structure CourseData where
  course_name : Option String := none
  base_url : Option String := none
  cta_link : Option String := none
  price : Option String := none
  pdp_price : Option String := none
  cta_status : Option String := none
  is_broken : Option Int := none
  price_mismatch : Option Int := none
deriving DecidableEq, Repr

/-- Embeds the `ValidationResult` dataclass of base_validator.py. -/
structure ValidationResult where
  type : String
  severity : String
  message : String
  course_name : String
  field : Option String := none
  expected : Option String := none
  actual : Option String := none
deriving DecidableEq, Repr

/-- Embeds `CTAValidator._validate` (cta_validator.py lines 23-74): CRITICAL
when the link is missing/sentinel, CRITICAL (and stop) when the link never
left the listing page, otherwise HIGH when the PDP lacks a purchase button. -/
def cta_validate (cd : CourseData) : List ValidationResult :=
  let course_name := cd.course_name.getD "Unknown Course"
  let base_url := cd.base_url.getD ""
  let cta_link := cd.cta_link.getD ""
  let is_broken := cd.is_broken.getD 0
  let cta_status := cd.cta_status.getD "N/A"
  if cta_link == "" || ["N/A", "Error", ""].contains cta_link then
    [{ type := "CTA_BROKEN"
       severity := "CRITICAL"
       message := "No CTA link found on course card"
       course_name := course_name
       field := some "cta_link"
       expected := some "Valid URL"
       actual := some (if cta_link == "" then "None" else cta_link) }]
  else
    -- Python: `is_broken == 1 or (base_url and cta_link.strip('/') ==
    -- base_url.strip('/'))`; an empty base_url is falsy.
    if is_broken == 1 ||
        (!(base_url == "") && stripSlashes cta_link == stripSlashes base_url) then
      [{ type := "CTA_BROKEN"
         severity := "CRITICAL"
         message := "Course card link doesn't navigate to a PDP"
         course_name := course_name
         field := some "cta_link"
         expected := some "Different URL from listing page"
         actual := some cta_link }]
    else if cta_status == "Not Found" then
      [{ type := "CTA_MISSING"
         severity := "HIGH"
         message := "PDP reachable but no Enroll/Buy Now button found"
         course_name := course_name
         field := some "cta_status"
         expected := some "Enroll Now / Buy Now button"
         actual := some "Not Found" }]
    else []

/-- Embeds `PriceMismatchValidator._validate`
(price_mismatch_validator.py lines 20-84). -/
def price_mismatch_validate (cd : CourseData) : List ValidationResult :=
  let course_name := cd.course_name.getD "Unknown Course"
  let card_price := cd.price.getD ""
  let pdp_price := cd.pdp_price.getD ""
  let flag := cd.price_mismatch.getD 0
  if is_price_missing card_price && is_price_missing pdp_price then []
  else if flag == 1 then
    [{ type := "PRICE_MISMATCH"
       severity := "MEDIUM"
       message := "Price on card doesn't match price on PDP"
       course_name := course_name
       field := some "price"
       expected := some card_price
       actual := some pdp_price }]
  else if !(is_price_missing card_price) && is_price_missing pdp_price then
    [{ type := "PRICE_MISMATCH"
       severity := "MEDIUM"
       message := "Price shown on card but not found on PDP"
       course_name := course_name
       field := some "pdp_price"
       expected := some card_price
       actual := some "Not Found" }]
  else if is_price_missing card_price && !(is_price_missing pdp_price) then
    [{ type := "PRICE_MISMATCH"
       severity := "LOW"
       message := "Price found on PDP but not shown on card"
       course_name := course_name
       field := some "price"
       expected := some pdp_price
       actual := some "N/A" }]
  else if flag == 0 then
    -- Python: `elif not price_mismatch_flag:` — only an integer 0 is falsy.
    match vclean_price card_price, vclean_price pdp_price with
    | some c, some p =>
      if !(c == p) then
        [{ type := "PRICE_MISMATCH"
           severity := "MEDIUM"
           message := "Numeric price values don't match"
           course_name := course_name
           field := some "price"
           expected := some (card_price ++ " (" ++ c ++ ")")
           actual := some (pdp_price ++ " (" ++ p ++ ")") }]
      else []
    | _, _ => []
  else []

/-! ## Chain of responsibility (base_validator.py lines 40-57 and
validation_service.py lines 23-35)

`BaseValidator.validate` runs the stage rule and then appends the next
stage's results; `_build_default_validator_chain` links the purchase-CTA rule
to the price-mismatch rule. -/

/-- A chain of validators: each node carries its `_validate` rule and an
optional successor set by `set_next`. -/
inductive RuleChain where
  | last : (CourseData → List ValidationResult) → RuleChain
  | cons : (CourseData → List ValidationResult) → RuleChain → RuleChain

/-- Embeds `BaseValidator.validate`: run this stage, then extend with the
next stage's issues when a successor was set. -/
def RuleChain.validate : RuleChain → CourseData → List ValidationResult
  | .last rule, cd => rule cd
  | .cons rule next, cd => rule cd ++ next.validate cd

/-- Modelled from the spec: `validators/purchase_cta_validator.py` is imported
by validation_service.py and validators/__init__.py but is not under src; the
only CTA rule specified (spec section 4.6, the CTA/Link rule) is exactly the
logic of `CTAValidator._validate`, which is under src and is reused here. -/
def purchase_cta_validate (cd : CourseData) : List ValidationResult :=
  cta_validate cd

/-- Embeds `ValidationService._build_default_validator_chain`: the CTA rule
chained to the price-mismatch rule. -/
def build_default_validator_chain : RuleChain :=
  .cons purchase_cta_validate (.last price_mismatch_validate)

/-- C3: Chain completeness: validating through the default chain returns the
concatenation of the CTA rule and price-mismatch rule issue lists; in
particular the price-mismatch rule output is always a suffix of the chain
output, so the CTA rule early-returning never prevents the price rule from
running. -/
theorem chain_completeness_c3 (cd : CourseData) :
    RuleChain.validate build_default_validator_chain cd =
      purchase_cta_validate cd ++ price_mismatch_validate cd ∧
    List.IsSuffix (price_mismatch_validate cd)
      (RuleChain.validate build_default_validator_chain cd) :=
  ⟨rfl, ⟨purchase_cta_validate cd, rfl⟩⟩

/-- C2: Broken-link rule outcome: for every persisted record (whose
`base_url` is a non-empty task URL) with a present, non-sentinel `cta_link`
that either strips to the same value as `base_url` or carries `is_broken = 1`,
the CTA/Link rule produces exactly one issue, that issue is CRITICAL, and no
CTA_MISSING (purchase-button) issue is produced. -/
theorem broken_link_rule_c2 (cd : CourseData)
    (hbase : cd.base_url.getD "" ≠ "")
    (hcta : (cd.cta_link.getD "" == "" ||
      ["N/A", "Error", ""].contains (cd.cta_link.getD "")) = false)
    (hsame : stripSlashes (cd.cta_link.getD "") =
        stripSlashes (cd.base_url.getD "") ∨ cd.is_broken.getD 0 = 1) :
    (cta_validate cd).map (fun i => i.severity) = ["CRITICAL"] ∧
    (cta_validate cd).map (fun i => i.type) = ["CTA_BROKEN"] := by
  have hcta2 : ¬(cd.cta_link.getD "" = "" ∨ cd.cta_link.getD "" = "N/A" ∨
      cd.cta_link.getD "" = "Error" ∨ cd.cta_link.getD "" = "") := by
    simpa using hcta
  rcases hsame with hs | hb
  · simp [cta_validate, hcta2, hs, hbase]
  · simp [cta_validate, hcta2, hb]

/-- Concrete record exercising the strip-equality branch of C2. -/
def cdC2 : CourseData :=
  { course_name := some "Course B"
    base_url := some "https://allen.in/neet"
    cta_link := some "https://allen.in/neet/"
    cta_status := some "Not Found"
    is_broken := some 0 }

/-- C2 witness: the broken-link rule theorem instantiated on a concrete
record whose link strips to its listing URL. -/
theorem broken_link_rule_c2_witness :
    (cta_validate cdC2).map (fun i => i.severity) = ["CRITICAL"] ∧
    (cta_validate cdC2).map (fun i => i.type) = ["CTA_BROKEN"] :=
  broken_link_rule_c2 cdC2 (by decide) (by decide) (Or.inl (by decide))

theorem not_missing_of_vclean_some {p c : String}
    (h : vclean_price p = some c) : is_price_missing p = false := by
  cases hm : is_price_missing p with
  | true => simp [vclean_price, hm] at h
  | false => rfl

/-- C6: Price-mismatch rule tiers, for persisted records (whose
`price_mismatch` flag is the 0/1 value the scraper writes): no issue when
both prices are sentinel/missing; otherwise one MEDIUM issue when the flag
is 1 or both digit-normalized prices are present and differ; one MEDIUM
issue when the card has a price but the PDP does not; one LOW issue when the
PDP has a price but the card does not; and no issue in the remaining case. -/
theorem price_rule_tiers_c6 (cd : CourseData)
    (hf : cd.price_mismatch.getD 0 = 0 ∨ cd.price_mismatch.getD 0 = 1) :
    (is_price_missing (cd.price.getD "") = true →
      is_price_missing (cd.pdp_price.getD "") = true →
      price_mismatch_validate cd = []) ∧
    (¬(is_price_missing (cd.price.getD "") = true ∧
        is_price_missing (cd.pdp_price.getD "") = true) →
      (cd.price_mismatch.getD 0 = 1 ∨
        (∃ c p, vclean_price (cd.price.getD "") = some c ∧
          vclean_price (cd.pdp_price.getD "") = some p ∧ c ≠ p)) →
      (price_mismatch_validate cd).map (fun i => i.severity) = ["MEDIUM"]) ∧
    (cd.price_mismatch.getD 0 ≠ 1 →
      is_price_missing (cd.price.getD "") = false →
      is_price_missing (cd.pdp_price.getD "") = true →
      (price_mismatch_validate cd).map (fun i => i.severity) = ["MEDIUM"]) ∧
    (cd.price_mismatch.getD 0 ≠ 1 →
      is_price_missing (cd.price.getD "") = true →
      is_price_missing (cd.pdp_price.getD "") = false →
      (price_mismatch_validate cd).map (fun i => i.severity) = ["LOW"]) ∧
    (cd.price_mismatch.getD 0 = 0 →
      is_price_missing (cd.price.getD "") = false →
      is_price_missing (cd.pdp_price.getD "") = false →
      (∀ c p, vclean_price (cd.price.getD "") = some c →
        vclean_price (cd.pdp_price.getD "") = some p → c = p) →
      price_mismatch_validate cd = []) := by
  refine ⟨?_, ?_, ?_, ?_, ?_⟩
  · intro h1 h2
    simp [price_mismatch_validate, h1, h2]
  · intro hnot hcase
    have hand : (is_price_missing (cd.price.getD "") &&
        is_price_missing (cd.pdp_price.getD "")) = false := by
      cases hc1 : is_price_missing (cd.price.getD "") <;>
        cases hc2 : is_price_missing (cd.pdp_price.getD "") <;> simp_all
    rcases hcase with hflag | ⟨c, p, hc, hp, hne⟩
    · simp [price_mismatch_validate, hand, hflag]
    · have hcm := not_missing_of_vclean_some hc
      have hpm := not_missing_of_vclean_some hp
      rcases hf with h0 | h1
      · simp [price_mismatch_validate, hand, h0, hcm, hpm, hc, hp, hne]
      · simp [price_mismatch_validate, hand, h1]
  · intro hne1 hcm hpm
    have h0 : cd.price_mismatch.getD 0 = 0 := by tauto
    simp [price_mismatch_validate, hcm, hpm, h0]
  · intro hne1 hcm hpm
    have h0 : cd.price_mismatch.getD 0 = 0 := by tauto
    simp [price_mismatch_validate, hcm, hpm, h0]
  · intro h0 hcm hpm heq
    rcases hvc : vclean_price (cd.price.getD "") with _ | c
    · simp [price_mismatch_validate, hcm, hpm, h0, hvc]
    · rcases hvp : vclean_price (cd.pdp_price.getD "") with _ | p
      · simp [price_mismatch_validate, hcm, hpm, h0, hvc, hvp]
      · simp [price_mismatch_validate, hcm, hpm, h0, hvc, hvp, heq c p hvc hvp]

/-- Record with both prices missing. -/
def cdC6a : CourseData :=
  { course_name := some "Course C", price := some "N/A",
    pdp_price := some "Not Found", price_mismatch := some 0 }

/-- Record with the scraped mismatch flag set. -/
def cdC6b : CourseData :=
  { course_name := some "Course C", price := some "₹ 10",
    pdp_price := some "₹ 20", price_mismatch := some 1 }

/-- Record where the card has a price and the PDP does not. -/
def cdC6c : CourseData :=
  { course_name := some "Course C", price := some "₹ 10",
    pdp_price := some "Not Found", price_mismatch := some 0 }

/-- Record where the PDP has a price and the card does not. -/
def cdC6d : CourseData :=
  { course_name := some "Course C", price := some "N/A",
    pdp_price := some "₹ 20", price_mismatch := some 0 }

/-- Record with an unflagged numeric disagreement. -/
def cdC6e : CourseData :=
  { course_name := some "Course C", price := some "₹ 10",
    pdp_price := some "₹ 20", price_mismatch := some 0 }

/-- C6 witness: each tier of the price-mismatch rule exercised on a concrete
record through the tiers theorem. -/
theorem price_rule_tiers_c6_witness :
    price_mismatch_validate cdC6a = [] ∧
    (price_mismatch_validate cdC6b).map (fun i => i.severity) = ["MEDIUM"] ∧
    (price_mismatch_validate cdC6c).map (fun i => i.severity) = ["MEDIUM"] ∧
    (price_mismatch_validate cdC6d).map (fun i => i.severity) = ["LOW"] ∧
    (price_mismatch_validate cdC6e).map (fun i => i.severity) = ["MEDIUM"] :=
  ⟨(price_rule_tiers_c6 cdC6a (Or.inl (by decide))).1 (by decide) (by decide),
   (price_rule_tiers_c6 cdC6b (Or.inr (by decide))).2.1 (by decide)
     (Or.inl (by decide)),
   (price_rule_tiers_c6 cdC6c (Or.inl (by decide))).2.2.1 (by decide)
     (by decide) (by decide),
   (price_rule_tiers_c6 cdC6d (Or.inl (by decide))).2.2.2.1 (by decide)
     (by decide) (by decide),
   (price_rule_tiers_c6 cdC6e (Or.inl (by decide))).2.1 (by decide)
     (Or.inr ⟨"10", "20", by decide, by decide, by decide⟩)⟩

/-! ## Detail-page verifier (`BasePageHandler.verify_pdp`, scraper.py
lines 160-215)

The browser surface is abstracted into a `PdpEnv`: `landed` is the outcome
of `page.goto(pdp_url)` together with everything the subsequent selector
scans read (`none` models any exception raised inside the `try` block up to
and including extraction), `returnNavFails` models the success-path
`page.goto(original_url)` raising, and `backNavFails` models the error-path
recovery `goto` raising — the code swallows the latter, so the definition
never reads it.  The second component of the result is the list of
navigation targets attempted, used to state that the short-circuit branch
navigates nowhere. -/

/-- The page state observed after successfully navigating to the PDP. -/
structure LandedPage where
  url : String
  priceTexts : List String
  ctaTexts : List String
deriving DecidableEq, Repr

/-- Outcomes of the browser interactions `verify_pdp` performs. -/
structure PdpEnv where
  landed : Option LandedPage
  returnNavFails : Bool
  backNavFails : Bool
deriving DecidableEq, Repr

/-- Price scan of scraper.py lines 175-184: first stripped text fragment
containing the currency symbol and shorter than 25 characters. -/
def findPdpPrice : List String → String
  | [] => "Not Found"
  | t :: ts =>
    let st := stripWs t
    if strContains st "₹" && st.length < 25 then st else findPdpPrice ts

/-- The CTA keyword set of scraper.py line 197. -/
def ctaKeywords : List String := ["enroll now", "enrol now", "buy now"]

/-- The per-button match of scraper.py line 202: case-insensitive exact
equality, or substring containment with a short (<20 chars) text. -/
def ctaMatches (t : String) : Bool :=
  let low := lowerStr (stripWs t)
  ctaKeywords.any (fun kw => kw == low || (strContains low kw && low.length < 20))

/-- CTA scan of scraper.py lines 196-206. -/
def findCta : List String → String
  | [] => "Not Found"
  | t :: ts =>
    if ctaMatches t then "Found (" ++ stripWs t ++ ")" else findCta ts

/-- Price-mismatch check of scraper.py lines 186-193, using the scraper-side
`clean_price`. -/
def computeMismatch (card_price : Option String) (pdp_price : String) : Int :=
  match card_price with
  | none => 0
  | some cp =>
    if cp == "" then 0
    else if pdp_price == "Not Found" then 0
    else
      match clean_price cp, clean_price pdp_price with
      | some c, some p => if !(c == p) then 1 else 0
      | _, _ => 0

/-- Embeds `BasePageHandler.verify_pdp`: result tuple
`(pdp_price, cta_status, is_broken, price_mismatch)` paired with the list of
navigation targets attempted. -/
def verify_pdp (env : PdpEnv) (pdp_url original_url : String)
    (card_price : Option String) : (String × String × Int × Int) × List String :=
  if pdp_url == "" || pdp_url == original_url then
    (("N/A", "N/A", 1, 0), [])
  else
    match env.landed with
    | none => (("Error", "Error", 1, 0), [pdp_url, original_url])
    | some page =>
      let is_broken : Int :=
        if stripSlashes page.url == stripSlashes original_url then 1 else 0
      let pdp_price := findPdpPrice page.priceTexts
      let price_mismatch := computeMismatch card_price pdp_price
      let cta_status := findCta page.ctaTexts
      if env.returnNavFails then
        (("Error", "Error", 1, 0), [pdp_url, original_url, original_url])
      else
        ((pdp_price, cta_status, is_broken, price_mismatch),
          [pdp_url, original_url])

/-- C7: Verifier sentinel results: `verify_pdp` returns
`("N/A", "N/A", broken=1, mismatch=0)` without navigating whenever the
destination URL is empty or equal to the original URL; it returns
`("Error", "Error", broken=1, mismatch=0)` on any navigation error after a
best-effort attempt to navigate back; and the outcome of that back-navigation
attempt (`backNavFails`) never influences the result — its errors are
swallowed. -/
theorem verifier_sentinels_c7 (env : PdpEnv) (pdp_url original_url : String)
    (cp : Option String) :
    ((pdp_url = "" ∨ pdp_url = original_url) →
      verify_pdp env pdp_url original_url cp = (("N/A", "N/A", 1, 0), [])) ∧
    (¬(pdp_url = "" ∨ pdp_url = original_url) → env.landed = none →
      verify_pdp env pdp_url original_url cp =
        (("Error", "Error", 1, 0), [pdp_url, original_url])) ∧
    (¬(pdp_url = "" ∨ pdp_url = original_url) → env.returnNavFails = true →
      (verify_pdp env pdp_url original_url cp).1 = ("Error", "Error", 1, 0)) ∧
    (∀ b : Bool, verify_pdp { env with backNavFails := b }
        pdp_url original_url cp = verify_pdp env pdp_url original_url cp) := by
  refine ⟨?_, ?_, ?_, ?_⟩
  · intro h
    rcases h with h | h <;> simp [verify_pdp, h]
  · intro hne hnav
    simp only [not_or] at hne
    simp [verify_pdp, hne.1, hne.2, hnav]
  · intro hne hfail
    simp only [not_or] at hne
    rcases hl : env.landed with _ | page
    · simp [verify_pdp, hne.1, hne.2, hl]
    · simp [verify_pdp, hne.1, hne.2, hl, hfail]
  · intro b
    cases env
    rfl

/-- Environment in which navigating to the PDP raises. -/
def envC7 : PdpEnv := { landed := none, returnNavFails := false,
                        backNavFails := true }

/-- C7 witness: the sentinel theorem instantiated on concrete URLs, covering
the short-circuit branch and the navigation-error branch. -/
theorem verifier_sentinels_c7_witness :
    verify_pdp envC7 "https://allen.in" "https://allen.in" none =
      (("N/A", "N/A", 1, 0), []) ∧
    verify_pdp envC7 "https://allen.in/pdp" "https://allen.in" none =
      (("Error", "Error", 1, 0), ["https://allen.in/pdp", "https://allen.in"]) ∧
    verify_pdp { envC7 with backNavFails := false }
        "https://allen.in/pdp" "https://allen.in" none =
      verify_pdp envC7 "https://allen.in/pdp" "https://allen.in" none :=
  ⟨(verifier_sentinels_c7 envC7 "https://allen.in" "https://allen.in" none).1
      (Or.inr rfl),
   (verifier_sentinels_c7 envC7 "https://allen.in/pdp" "https://allen.in"
      none).2.1 (by decide) rfl,
   (verifier_sentinels_c7 envC7 "https://allen.in/pdp" "https://allen.in"
      none).2.2.2 false⟩

/-! ## Link resolver (`BasePageHandler.extract_cta_link`, scraper.py
lines 123-158)

A card is abstracted to the href attributes of its anchors (in locator
order; `none` models `get_attribute` returning no value) plus whether it has
a button.  The click path is abstracted to `clickResult`: `some u` is the
URL read after the click-and-wait poll (equal to the entry URL when the page
never navigated), `none` models an exception anywhere in the click path, in
which case the code falls through to `return self.page.url`.  The Bool
component of the result records whether the click path ran at all. -/

/-- A course card as seen by the link resolver. -/
structure Card where
  hrefs : List (Option String)
  hasButton : Bool
deriving DecidableEq, Repr

/-- Outcomes of the browser interactions the click path performs. -/
structure ClickEnv where
  pageUrl : String
  clickResult : Option String
deriving DecidableEq, Repr

/-- The href filter of scraper.py line 129: non-empty, not a fragment, not a
javascript pseudo-link. -/
def hrefQualifies (h : String) : Bool :=
  !(h == "") && !(strStarts h "#") && !(strContains h "javascript")

/-- The anchor scan of scraper.py lines 126-130: first qualifying href in
locator order. -/
def firstHref : List (Option String) → Option String
  | [] => none
  | none :: rest => firstHref rest
  | some h :: rest => if hrefQualifies h then some h else firstHref rest

/-- Relative-path resolution of scraper.py line 130. -/
def resolveHref (h : String) : String :=
  if strStarts h "/" then "https://allen.in" ++ h else h

/-- Embeds `BasePageHandler.extract_cta_link`: the resolved destination URL
paired with whether the click path was entered. -/
def extract_cta_link (card : Card) (env : ClickEnv) : String × Bool :=
  match firstHref card.hrefs with
  | some h => (resolveHref h, false)
  | none =>
    if card.hasButton then
      match env.clickResult with
      | some u => (u, true)
      | none => (env.pageUrl, true)
    else (env.pageUrl, false)

/-- C8: Link resolver priority and fallback: when some anchor qualifies, the
resolver returns its href (origin-prefixed when relative) without entering
the click path; when no anchor qualifies and the click path yields no
destination — no button, an exception, or an unchanged URL — it returns the
current page URL instead of aborting. -/
theorem link_resolver_c8 (card : Card) (env : ClickEnv) :
    (∀ h, firstHref card.hrefs = some h →
      extract_cta_link card env = (resolveHref h, false)) ∧
    (firstHref card.hrefs = none →
      (card.hasButton = false ∨ env.clickResult = none ∨
        env.clickResult = some env.pageUrl) →
      (extract_cta_link card env).1 = env.pageUrl) := by
  constructor
  · intro h hh
    simp [extract_cta_link, hh]
  · intro hnone hfall
    rcases hfall with hb | hc | hc
    · simp [extract_cta_link, hnone, hb]
    · simp [extract_cta_link, hnone, hc]
      split <;> rfl
    · simp [extract_cta_link, hnone, hc]
      split <;> rfl

/-- Card carrying a direct relative anchor. -/
def cardC8a : Card := { hrefs := [none, some "#", some "/course/jee"],
                        hasButton := true }

/-- Card with no anchors and a button whose click never navigates. -/
def cardC8b : Card := { hrefs := [some "javascript:void(0)"],
                        hasButton := true }

/-- Click environment whose poll saw no URL change. -/
def envC8 : ClickEnv := { pageUrl := "https://allen.in/home",
                          clickResult := some "https://allen.in/home" }

/-- C8 witness: the resolver theorem instantiated on a card with a relative
href (origin-prefixed, no click) and on a card whose click path yields no
new destination (page-URL fallback). -/
theorem link_resolver_c8_witness :
    extract_cta_link cardC8a envC8 = ("https://allen.in/course/jee", false) ∧
    (extract_cta_link cardC8b envC8).1 = "https://allen.in/home" :=
  ⟨(link_resolver_c8 cardC8a envC8).1 "/course/jee" (by decide),
   (link_resolver_c8 cardC8b envC8).2 (by decide) (Or.inr (Or.inr rfl))⟩

/-! ## Click-and-wait poll loop (scraper.py lines 141-145)

The loop `while time.time() - start < 8: if changed: break; time.sleep(0.5)`
is modelled in half-second ticks: at tick `k` (elapsed `0.5 * k` seconds) the
guard `elapsed < 8` is `k < 16`; the body reads the URL at that instant
(`urlAt k`) and either breaks or sleeps to tick `k + 1`.  `pollLoop` returns
the tick at which the loop exits; it is a total structurally-bounded
definition, which is itself the termination argument. -/

/-- The click-and-wait poll loop, returning the exit tick. -/
def pollLoop (urlAt : Nat → String) (current : String) (k : Nat) : Nat :=
  if 16 ≤ k then k
  else if !(urlAt k == current) then k
  else pollLoop urlAt current (k + 1)
termination_by 16 - k
decreasing_by omega

theorem pollLoop_le (urlAt : Nat → String) (current : String) :
    ∀ n k, 16 - k ≤ n → k ≤ 16 → pollLoop urlAt current k ≤ 16 := by
  intro n
  induction n with
  | zero =>
    intro k h1 h2
    have hk : 16 ≤ k := by omega
    unfold pollLoop
    simp [hk]
    omega
  | succ n ih =>
    intro k h1 h2
    unfold pollLoop
    split
    · exact h2
    · split
      · exact h2
      · exact ih (k + 1) (by omega) (by omega)

/-- C9: Click-and-wait timeout bound: the poll loop (0.5-second interval,
8-second deadline) is a total function — it terminates for every input — and
exits no later than tick 16, i.e. after at most 8 seconds, even if the
destination URL never changes. -/
theorem poll_timeout_c9 (urlAt : Nat → String) (current : String) :
    pollLoop urlAt current 0 ≤ 16 :=
  pollLoop_le urlAt current 16 0 (by omega) (by omega)

/-! ## Claim C10: agreement of the two price normalizers

The scraper-side cleaner rejects any string merely containing "N/A" or
"Not Found"; the validator-side cleaner rejects only exact (case-insensitive)
sentinels.  They disagree on strings that contain a sentinel as a proper
substring alongside digits. -/

/-- C10 counterexample: on "N/A 123" the scraper-side cleaner reports a
missing price while the validator-side cleaner extracts "123", so the two
normalizers do not agree on every input. -/
theorem normalizers_c10_counterexample :
    clean_price "N/A 123" = none ∧
    vclean_price "N/A 123" = some "123" ∧
    clean_price "N/A 123" ≠ vclean_price "N/A 123" := by
  decide

theorem lowerChar_of_digit {c : Char} (h : isDigitC c = true) :
    lowerChar c = c := by
  have h2 : (65 ≤ c.toNat && c.toNat ≤ 90) = false := by
    simp only [isDigitC, Bool.and_eq_true, decide_eq_true_eq] at h
    simp only [Bool.and_eq_false_iff, decide_eq_false_iff_not, not_le]
    omega
  simp [lowerChar, h2]

theorem nodigit_of_lower {s t : String} (h : lowerStr s = t)
    (ht : ∀ c ∈ t.toList, isDigitC c = false) :
    ∀ c ∈ s.toList, isDigitC c = false := by
  intro c hc
  cases hd : isDigitC c with
  | false => rfl
  | true =>
    exfalso
    have hmem : lowerChar c ∈ s.toList.map lowerChar :=
      List.mem_map_of_mem lowerChar hc
    rw [lowerChar_of_digit hd] at hmem
    have hteq : s.toList.map lowerChar = t.toList := by
      have := congrArg String.toList h
      simpa [lowerStr] using this
    rw [hteq] at hmem
    exact absurd hd (by simp [ht c hmem])

theorem digits_empty_of_nodigit {s : String}
    (h : ∀ c ∈ s.toList, isDigitC c = false) :
    digitsOnly (removeCommas s) = "" := by
  unfold digitsOnly removeCommas
  have : ((String.mk (s.toList.filter (fun c => !(c == ',')))).toList.filter
      isDigitC) = [] := by
    rw [List.filter_eq_nil_iff]
    intro a ha
    have ha2 : a ∈ s.toList := List.mem_of_mem_filter ha
    simp [h a ha2]
  rw [this]

theorem lower_empty_imp_empty {s : String} (h : lowerStr s = "") : s = "" := by
  have := congrArg String.toList h
  simp only [lowerStr] at this
  have hnil : s.toList.map lowerChar = [] := this
  have hempty : s.toList = [] := List.map_eq_nil_iff.mp hnil
  cases s with
  | mk data =>
    have hd : data = [] := hempty
    subst hd
    rfl

/-- C10 amended: the scraper-side and validator-side price normalizers agree
on every input string that does not contain "N/A" or "Not Found" as a
substring (on strings containing those substrings the scraper-side cleaner
reports missing while the validator-side cleaner may still extract digits). -/
theorem normalizers_agree_c10_amended (s : String)
    (h1 : strContains s "N/A" = false)
    (h2 : strContains s "Not Found" = false) :
    clean_price s = vclean_price s := by
  by_cases hm : is_price_missing s = true
  · have hcases : s = "" ∨ lowerStr s = "n/a" ∨ lowerStr s = "not found" ∨
        lowerStr s = "error" ∨ lowerStr s = "" := by
      simpa [is_price_missing] using hm
    have hclean_none : ∀ t : String, lowerStr s = t →
        (∀ c ∈ t.toList, isDigitC c = false) → clean_price s = none := by
      intro t hl hnt
      have hnd := nodigit_of_lower hl hnt
      have hde := digits_empty_of_nodigit hnd
      simp [clean_price, h1, h2, hde]
    rcases hcases with he | hl | hl | hl | hl
    · subst he; decide
    · rw [hclean_none "n/a" hl (by decide), vclean_price, if_pos hm]
    · rw [hclean_none "not found" hl (by decide), vclean_price, if_pos hm]
    · rw [hclean_none "error" hl (by decide), vclean_price, if_pos hm]
    · have := lower_empty_imp_empty hl
      subst this; decide
  · have hmf : is_price_missing s = false := by
      revert hm; cases is_price_missing s <;> simp
    have hse : (s == "") = false := by
      cases he : (s == "") with
      | false => rfl
      | true =>
        have : s = "" := by simpa using he
        subst this
        simp [is_price_missing] at hmf
    simp [clean_price, vclean_price, hse, h1, h2, hmf]

/-- C10 witness: the amended agreement theorem instantiated on a concrete
price string free of the sentinel substrings. -/
theorem normalizers_agree_c10_witness :
    clean_price "₹ 93,500" = vclean_price "₹ 93,500" :=
  normalizers_agree_c10_amended "₹ 93,500" (by decide) (by decide)

end UIAlert
